import Mathlib

/-!
Verification of the telegram-backup-bot repository against its
natural-language specification.

The development shallowly embeds the Python sources:
sizes in GB/MB are modelled as rationals, machine interaction
(filesystem, transport, disk usage) as explicit state/environment values,
and exception control flow as explicit outcome datatypes or Except.
-/

namespace BackupBot

/-! ### Configuration constants (src/config.example.py) -/

def MAX_RETRY_ATTEMPTS : Nat := 3

def RETRY_DELAY : Nat := 30

def MAX_FILE_SIZE : Nat := 2 * 1024 * 1024 * 1024

/-! ### File records (src/file_processor.py, get_file_info) -/

/-- One discovered file, as built by FileProcessor.get_file_info:
name, absolute path, source label, size in bytes with derived MB/GB,
best-effort timestamps (kept as strings like the source) and the
too-large flag (size_bytes > MAX_FILE_SIZE). -/
structure FileInfo where
  name : String
  path : String
  source : String
  size_bytes : Nat
  size_mb : Rat
  size_gb : Rat
  creation_time : String
  modification_time : String
  is_too_large : Bool
deriving DecidableEq, Repr

/-! ### Upload with retry (src/telegram_client.py, send_file_with_progress)

The transport (telethon client.send_file) is modelled by the sequence of
outcomes it would produce on successive transfer attempts: a successful
send carrying the assigned message id, a FloodWaitError carrying the
mandated wait seconds, an RPCError, or any other exception. -/

inductive TransportOutcome where
  | ok (messageId : Nat)
  | floodWait (seconds : Nat)
  | rpcError
  | genericError
deriving DecidableEq, Repr

/-- Observable effects of one call to send_file_with_progress:
whether it returned True, how many transfer attempts (client.send_file
calls) were made, the sleep durations issued in order, the history
records appended in order (success flag and message id passed to
record_upload_history), and how many error notifications were sent. -/
structure SendResult where
  success : Bool
  attempts : Nat
  sleeps : List Nat
  history : List (Bool × Option Nat)
  error_notifs : Nat
deriving DecidableEq, Repr

/-- Embedding of TelegramUploader.send_file_with_progress.  The checks
mirror the source order: the connected guard, then the is_too_large
guard (which records one failed history row and returns False without
any transfer attempt), then one transfer attempt whose outcome is the
head of the outcome sequence.  FloodWaitError sleeps the mandated
seconds and retries with the same retry count; RPCError and generic
exceptions with retry_count < MAX_RETRY_ATTEMPTS sleep
RETRY_DELAY * (retry_count + 1) and retry with retry_count + 1,
otherwise they record a failed history row, send one error
notification and return False. -/
def send_file_with_progress (connected : Bool) (fi : FileInfo) :
    List TransportOutcome → Nat → SendResult
  | outs, retry_count =>
    if ¬ connected then
      { success := false, attempts := 0, sleeps := [], history := [], error_notifs := 0 }
    else if fi.is_too_large then
      { success := false, attempts := 0, sleeps := [], history := [(false, none)],
        error_notifs := 0 }
    else
      match outs with
      | [] =>
          { success := false, attempts := 0, sleeps := [], history := [], error_notifs := 0 }
      | TransportOutcome.ok msgId :: _ =>
          { success := true, attempts := 1, sleeps := [], history := [(true, some msgId)],
            error_notifs := 0 }
      | TransportOutcome.floodWait n :: rest =>
          let r := send_file_with_progress connected fi rest retry_count
          { r with attempts := r.attempts + 1, sleeps := n :: r.sleeps }
      | TransportOutcome.rpcError :: rest =>
          if retry_count < MAX_RETRY_ATTEMPTS then
            let r := send_file_with_progress connected fi rest (retry_count + 1)
            { r with attempts := r.attempts + 1,
                     sleeps := RETRY_DELAY * (retry_count + 1) :: r.sleeps }
          else
            { success := false, attempts := 1, sleeps := [], history := [(false, none)],
              error_notifs := 1 }
      | TransportOutcome.genericError :: rest =>
          if retry_count < MAX_RETRY_ATTEMPTS then
            let r := send_file_with_progress connected fi rest (retry_count + 1)
            { r with attempts := r.attempts + 1,
                     sleeps := RETRY_DELAY * (retry_count + 1) :: r.sleeps }
          else
            { success := false, attempts := 1, sleeps := [], history := [(false, none)],
              error_notifs := 1 }

/-! ### Upload history records (src/cleanup_manager.py, load_upload_history)

The history CSV is read with csv.DictReader; the cleanup code accesses
the columns filename, source_path, upload_date and upload_success
(the latter via record.get with default empty string). -/

/-- One parsed row of the upload history CSV, restricted to the fields
the cleanup manager reads. -/
structure HistoryRecord where
  filename : String
  source_path : String
  upload_date : String
  upload_success : String
deriving DecidableEq, Repr

/-- ASCII lower-casing of a string, character by character, standing in
for Python str.lower on the CSV field values. -/
def pyLower (s : String) : String := ⟨s.data.map Char.toLower⟩

/-- Embedding of CleanupManager.get_successful_uploads: keep the records
whose upload_success field lower-cases to the string true. -/
def get_successful_uploads (history : List HistoryRecord) : List HistoryRecord :=
  history.filter (fun r => pyLower r.upload_success == "true")

/-! ### Disk usage and cleanup need (src/cleanup_manager.py) -/

/-- Snapshot returned by CleanupManager.get_disk_usage (None when
shutil.disk_usage raised, modelled by Option at the call sites). -/
structure DiskUsage where
  total_gb : Rat
  used_gb : Rat
  free_gb : Rat
  usage_percent : Rat
deriving DecidableEq, Repr

/-- Embedding of CleanupManager.needs_cleanup: when disk usage cannot be
determined the answer is True (fail-safe); otherwise True iff free space
is below threshold_gb or usage is above usage_percent. -/
def needs_cleanup (du : Option DiskUsage) (threshold_gb : Rat := 10)
    (usage_percent : Rat := 90) : Bool :=
  match du with
  | none => true
  | some d => decide (d.free_gb < threshold_gb) || decide (d.usage_percent > usage_percent)

/-! ### Cleanup candidate selection (src/cleanup_manager.py, get_files_to_cleanup) -/

/-- Candidate dictionary built inside get_files_to_cleanup from a
successful history record whose source_path still exists: freshly
stat'd size (converted to GB) and modification time, plus the history
row's upload_date and filename. -/
structure CleanupCandidate where
  path : String
  size_gb : Rat
  modification_time : Int
  upload_date : String
  filename : String
deriving DecidableEq, Repr

/-- Live filesystem state consulted by the cleanup manager: existence,
os.path.getsize and os.path.getmtime per path (timestamps as integers,
only their order matters). -/
structure FSState where
  pathExists : String → Bool
  sizeBytes : String → Nat
  mtime : String → Int

/-- The selection loop of get_files_to_cleanup: walk the sorted
candidates, breaking as soon as the accumulated size has reached
space_to_free_gb, otherwise appending the candidate and adding its
size to the accumulator. -/
def selectFiles (space_to_free_gb : Rat) :
    List CleanupCandidate → Rat → List CleanupCandidate
  | [], _ => []
  | c :: cs, acc =>
    if acc ≥ space_to_free_gb then []
    else c :: selectFiles space_to_free_gb cs (acc + c.size_gb)

/-- Comparison key used by cleanup_candidates.sort. -/
def mtimeLe (a b : CleanupCandidate) : Prop :=
  a.modification_time ≤ b.modification_time

instance : DecidableRel mtimeLe :=
  fun a b => Int.decLe a.modification_time b.modification_time

instance : IsTotal CleanupCandidate mtimeLe :=
  ⟨fun a b => Int.le_total a.modification_time b.modification_time⟩

instance : IsTrans CleanupCandidate mtimeLe :=
  ⟨fun _ _ _ => Int.le_trans⟩

/-- Candidate record built inside the get_files_to_cleanup loop from a
successful history row whose source_path still exists. -/
def buildCandidate (fs : FSState) (r : HistoryRecord) : Option CleanupCandidate :=
  if fs.pathExists r.source_path then
    some { path := r.source_path
           size_gb := (fs.sizeBytes r.source_path : Rat) / (1024 ^ 3)
           modification_time := fs.mtime r.source_path
           upload_date := r.upload_date
           filename := r.filename }
  else none

/-- Embedding of CleanupManager.get_files_to_cleanup.  Mirrors the
source's early returns (no cleanup needed, no successful uploads, disk
usage unavailable, nothing to free), builds candidates from successful
records whose path still exists, sorts them by modification time
(Python's stable sort, embedded as insertion sort) and runs the greedy
selection loop. -/
def get_files_to_cleanup (fs : FSState) (du : Option DiskUsage)
    (history : List HistoryRecord) (target_free_gb : Rat := 50) :
    List CleanupCandidate :=
  if ¬ needs_cleanup du then []
  else if (get_successful_uploads history).isEmpty then []
  else
    match du with
    | none => []
    | some d =>
      if max 0 (target_free_gb - d.free_gb) ≤ 0 then []
      else
        selectFiles (max 0 (target_free_gb - d.free_gb))
          (List.insertionSort mtimeLe
            ((get_successful_uploads history).filterMap (buildCandidate fs))) 0

/-! ### Per-file deletion (src/cleanup_manager.py, delete_file_after_upload)

The OS interactions are modelled by an environment describing what each
call would do: the write-probe in the containing directory, the stat /
os.access block, os.remove, and the existence re-check. Exceptions are
modelled with Except in the body of the outer try, and the outer
handlers map every error to the False (file kept) return value. -/

inductive ProbeResult where
  | ok
  | osErrorReadOnly
  | osErrorOther
  | otherError
deriving DecidableEq, Repr

inductive RemoveResult where
  | ok
  | osErrorReadOnly
  | osErrorOther
  | permissionError
  | otherException
deriving DecidableEq, Repr

inductive PyError where
  | osError
  | permissionError
  | generic
deriving DecidableEq, Repr

/-- Environment of one delete_file_after_upload call: the
DELETE_AFTER_UPLOAD flag, whether the file exists at the initial check,
the outcome of the write-probe, whether the stat block raises, the
os.access result for the containing directory, the outcome of
os.remove, and whether the path still exists afterwards. -/
structure DeleteEnv where
  delete_after_upload : Bool
  fileExists : Bool
  probe : ProbeResult
  statFails : Bool
  canWrite : Bool
  removeResult : RemoveResult
  existsAfterRemove : Bool
deriving DecidableEq, Repr

/-- Body of the outer try of delete_file_after_upload.  A write-probe
failing with a read-only indication returns False; other probe errors
are caught and the code continues.  The stat block returns False when
the directory is not writable, unless the block itself raised (caught,
continue).  os.remove with errno 30 returns False; any other exception
from it propagates (re-raised for non-read-only OSErrors).  After a
successful remove, the path still existing means False, else True. -/
def delete_core (env : DeleteEnv) : Except PyError Bool :=
  if ¬ env.fileExists then Except.ok false
  else
    match env.probe with
    | ProbeResult.osErrorReadOnly => Except.ok false
    | _ =>
      if ¬ env.statFails ∧ ¬ env.canWrite then Except.ok false
      else
        match env.removeResult with
        | RemoveResult.ok =>
            if env.existsAfterRemove then Except.ok false else Except.ok true
        | RemoveResult.osErrorReadOnly => Except.ok false
        | RemoveResult.osErrorOther => Except.error PyError.osError
        | RemoveResult.permissionError => Except.error PyError.permissionError
        | RemoveResult.otherException => Except.error PyError.generic

/-- Embedding of CleanupManager.delete_file_after_upload: the
DELETE_AFTER_UPLOAD guard, then the try body, with the outer except
clauses (PermissionError, OSError read-only or not, Exception) all
returning False. -/
def delete_file_after_upload (env : DeleteEnv) : Bool :=
  if ¬ env.delete_after_upload then false
  else
    match delete_core env with
    | Except.ok b => b
    | Except.error PyError.permissionError => false
    | Except.error PyError.osError => false
    | Except.error PyError.generic => false

/-! ### Batch deletion results (src/cleanup_manager.py, cleanup_files) -/

/-- Live behaviour of one file inside the cleanup_files loop: whether
the path exists at the double check, its size, whether os.remove (or
any call in the loop body) raises, and whether the path still exists
after the remove. -/
structure CFileState where
  existsNow : Bool
  size_bytes : Nat
  removeRaises : Bool
  existsAfterRemove : Bool
deriving DecidableEq, Repr

/-- Results dictionary of cleanup_files. -/
structure CleanupResults where
  total_files : Nat
  successful_deletions : Nat
  failed_deletions : Nat
  total_freed_gb : Rat
deriving DecidableEq, Repr

/-- One iteration of the cleanup_files loop: a missing file counts as a
failed deletion; an exception counts as a failed deletion; a file still
present after os.remove counts as a failed deletion; otherwise the
deletion succeeded and its size in GB is added to the freed total. -/
def cleanup_step (acc : CleanupResults) (f : CFileState) : CleanupResults :=
  if ¬ f.existsNow then { acc with failed_deletions := acc.failed_deletions + 1 }
  else if f.removeRaises then { acc with failed_deletions := acc.failed_deletions + 1 }
  else if f.existsAfterRemove then { acc with failed_deletions := acc.failed_deletions + 1 }
  else { acc with successful_deletions := acc.successful_deletions + 1,
                  total_freed_gb := acc.total_freed_gb + (f.size_bytes : Rat) / (1024 ^ 3) }

/-- Embedding of CleanupManager.cleanup_files: fold the loop body over
the file list, starting from the results dictionary initialised with
total_files = len(files) and zero counters. -/
def cleanup_files (files : List CFileState) : CleanupResults :=
  files.foldl cleanup_step
    { total_files := files.length, successful_deletions := 0,
      failed_deletions := 0, total_freed_gb := 0 }

/-! ### History recording (src/telegram_client.py, record_upload_history) -/

/-- The header string the source hardcodes when it creates a fresh
history file (without the trailing newline; the file is modelled as a
list of lines). -/
def record_history_header : String :=
  "filename,source_path,upload_date,upload_success,file_size_mb,telegram_message_id"

/-- The UPLOAD_HISTORY_HEADER constant of src/config.example.py (not
referenced by record_upload_history, which hardcodes its own header). -/
def UPLOAD_HISTORY_HEADER : String :=
  "filename,source_path,upload_date,upload_success,file_size_mb,telegram_message_id,deleted_after_upload"

/-- Fixed two-decimal rendering of a rational, standing in for Python
percent-f formatting of the size in MB. -/
def formatFixed2 (q : Rat) : String :=
  let n := (round (q * 100)).toNat
  let frac := n % 100
  toString (n / 100) ++ "." ++ (if frac < 10 then "0" ++ toString frac else toString frac)

/-- The telegram_message_id column: str(message_id) if message_id is
truthy, empty string otherwise (None and 0 are falsy in Python). -/
def message_id_str (messageId : Option Nat) : String :=
  match messageId with
  | none => ""
  | some n => if n = 0 then "" else toString n

/-- The CSV data row built by record_upload_history: comma-join of
filename, source path, upload timestamp, TRUE/FALSE success flag, size
in MB (recomputed from size_bytes when the provided size_mb is zero and
bytes are available) and the message id column. -/
def history_row (upload_date : String) (fi : FileInfo) (success : Bool)
    (messageId : Option Nat) : String :=
  let upload_success := if success then "TRUE" else "FALSE"
  let file_size_mb :=
    if fi.size_mb = 0 ∧ fi.size_bytes > 0 then (fi.size_bytes : Rat) / (1024 * 1024)
    else fi.size_mb
  String.intercalate ","
    [fi.name, fi.path, upload_date, upload_success, formatFixed2 file_size_mb,
     message_id_str messageId]

/-- Embedding of record_upload_history's effect on the history file,
modelled as Option (List String): none when the file does not exist.
Opening in append mode creates the file; the header is written only
when the file did not exist, and exactly one data row is appended. -/
def record_upload_history (histFile : Option (List String)) (upload_date : String)
    (fi : FileInfo) (success : Bool) (messageId : Option Nat := none) : List String :=
  match histFile with
  | none => [record_history_header, history_row upload_date fi success messageId]
  | some lines => lines ++ [history_row upload_date fi success messageId]

/-! ### File discovery (src/file_processor.py) -/

/-- Comparison key used by found_files.sort in find_files_in_source. -/
def sizeLe (a b : FileInfo) : Prop := a.size_bytes ≤ b.size_bytes

instance : DecidableRel sizeLe :=
  fun a b => Nat.decLe a.size_bytes b.size_bytes

instance : IsTotal FileInfo sizeLe :=
  ⟨fun a b => Nat.le_total a.size_bytes b.size_bytes⟩

instance : IsTrans FileInfo sizeLe :=
  ⟨fun _ _ _ => Nat.le_trans⟩

/-- Embedding of FileProcessor.find_files_in_source, with the glob walk
abstracted into the list of matching FileInfo records it produced: the
function sorts that source's files by size, smallest first (Python's
stable sort, embedded as insertion sort). -/
def find_files_in_source (found_files : List FileInfo) : List FileInfo :=
  List.insertionSort sizeLe found_files

/-- Embedding of FileProcessor.discover_files_from_sources: iterate the
sources in order and extend the global list with each source's (sorted)
files; no global sort is applied to the concatenation. -/
def discover_files_from_sources (sources : List (List FileInfo)) : List FileInfo :=
  sources.foldl (fun all_files s => all_files ++ find_files_in_source s) []

/-! ### Process exit status (src/main.py, BackupBot.run and main) -/

/-- Embedding of BackupBot.run's return value as a function of what
happened in the run: source loading failed, Telegram client
initialisation failed, a fatal exception occurred, or the batch ran and
each file's send_file_with_progress outcome is listed.  The run returns
True exactly when it reached the end with zero failed uploads (the
no-files case returns True as well). -/
def bot_run (sources_ok client_ok fatal_error : Bool) (upload_ok : List Bool) : Bool :=
  if ¬ sources_ok then false
  else if ¬ client_ok then false
  else if fatal_error then false
  else if upload_ok.isEmpty then true
  else upload_ok.count false == 0

/-- Embedding of main: sys.exit(0 if success else 1). -/
def main_exit_code (sources_ok client_ok fatal_error : Bool)
    (upload_ok : List Bool) : Nat :=
  if bot_run sources_ok client_ok fatal_error upload_ok then 0 else 1

/-! ## Helper lemmas -/

theorem cleanup_step_total_files (acc : CleanupResults) (f : CFileState) :
    (cleanup_step acc f).total_files = acc.total_files := by
  unfold cleanup_step; split_ifs <;> rfl

theorem cleanup_step_count (acc : CleanupResults) (f : CFileState) :
    (cleanup_step acc f).successful_deletions + (cleanup_step acc f).failed_deletions
      = acc.successful_deletions + acc.failed_deletions + 1 := by
  unfold cleanup_step; split_ifs <;> simp <;> omega

theorem cleanup_foldl_total_files (files : List CFileState) (acc : CleanupResults) :
    (files.foldl cleanup_step acc).total_files = acc.total_files := by
  induction files generalizing acc with
  | nil => rfl
  | cons f fs ih =>
    simpa [List.foldl, cleanup_step_total_files] using ih (cleanup_step acc f)

theorem cleanup_foldl_count (files : List CFileState) (acc : CleanupResults) :
    (files.foldl cleanup_step acc).successful_deletions
        + (files.foldl cleanup_step acc).failed_deletions
      = acc.successful_deletions + acc.failed_deletions + files.length := by
  induction files generalizing acc with
  | nil => simp
  | cons f fs ih =>
    have h := ih (cleanup_step acc f)
    simp only [List.foldl, List.length_cons] at h ⊢
    rw [h, cleanup_step_count]
    omega

/-! ## Claim theorems -/

/-- C10: for every input list of files, the cleanup_files results
dictionary satisfies successful_deletions + failed_deletions =
total_files and total_files = length of the input list: each file
contributes to exactly one of the two counters, including the
skip-if-missing, still-exists-after-delete, and exception branches. -/
theorem c10_cleanup_files_counter_invariant (files : List CFileState) :
    (cleanup_files files).successful_deletions + (cleanup_files files).failed_deletions
        = (cleanup_files files).total_files ∧
      (cleanup_files files).total_files = files.length := by
  unfold cleanup_files
  refine ⟨?_, cleanup_foldl_total_files files _⟩
  rw [cleanup_foldl_count, cleanup_foldl_total_files]
  simp

/-- C7: needs_cleanup with thresholds 10 GB and 90 percent returns true
iff free space is below 10 GB or usage is above 90 percent (stated for
arbitrary thresholds), returns true whenever disk usage cannot be
determined, and in particular returns true for a snapshot with 5 GB
free against the 10 GB threshold. -/
theorem c7_needs_cleanup_spec :
    (∀ (d : DiskUsage) (t p : Rat),
        needs_cleanup (some d) t p = true ↔ (d.free_gb < t ∨ d.usage_percent > p)) ∧
      (∀ t p : Rat, needs_cleanup none t p = true) ∧
      needs_cleanup
        (some { total_gb := 10, used_gb := 5, free_gb := 5, usage_percent := 50 }) 10 90
        = true := by
  refine ⟨?_, fun t p => rfl, by decide⟩
  intro d t p
  simp [needs_cleanup]

/-- C9: the process exit status is 0 iff the batch completed (sources
loaded, client initialised, no fatal error) with zero failed uploads,
and is 1 in every other case, including source-load failure and
client-init failure. -/
theorem c9_exit_status :
    (∀ (s c f : Bool) (rs : List Bool),
        main_exit_code s c f rs = 0 ∨ main_exit_code s c f rs = 1) ∧
      (∀ (s c f : Bool) (rs : List Bool),
        main_exit_code s c f rs = 0
          ↔ (s = true ∧ c = true ∧ f = false ∧ rs.count false = 0)) := by
  constructor
  · intro s c f rs
    unfold main_exit_code
    split_ifs <;> simp
  · intro s c f rs
    cases s <;> cases c <;> cases f <;>
      cases rs <;> simp [main_exit_code, bot_run]

/-- C3: a file whose too-large flag is set causes no transfer attempt
(zero attempts against the transport), exactly one failed history
record, and an immediate False return from send_file_with_progress,
for every transport outcome sequence and retry count. -/
theorem c3_too_large_skips_transfer (fi : FileInfo) (h : fi.is_too_large = true)
    (outs : List TransportOutcome) (retry_count : Nat) :
    send_file_with_progress true fi outs retry_count =
      { success := false, attempts := 0, sleeps := [], history := [(false, none)],
        error_notifs := 0 } := by
  unfold send_file_with_progress
  simp [h]

/-- A 2.5 GB discovered file, above the 2 GB transfer cap, as
get_file_info would build it. -/
def fiTooLarge : FileInfo :=
  { name := "big.7z", path := "/data/big.7z", source := "/data",
    size_bytes := 2684354560, size_mb := 2560, size_gb := (5 : Rat) / 2,
    creation_time := "2024-01-01 00:00:00", modification_time := "2024-01-01 00:00:00",
    is_too_large := true }

/-- Witness for C3 at a concrete 2.5 GB file: the too-large flag holds
and the upload makes zero attempts, records one failed row, fails. -/
theorem c3_too_large_skips_transfer_witness :
    fiTooLarge.is_too_large = true ∧
      send_file_with_progress true fiTooLarge [TransportOutcome.ok 7] 0 =
        { success := false, attempts := 0, sleeps := [], history := [(false, none)],
          error_notifs := 0 } :=
  ⟨rfl, c3_too_large_skips_transfer fiTooLarge rfl [TransportOutcome.ok 7] 0⟩

/-- An ordinary discovered file below the transfer cap. -/
def fiSmall : FileInfo :=
  { name := "db.sql", path := "/data/db.sql", source := "/data",
    size_bytes := 1048576, size_mb := 1, size_gb := (1 : Rat) / 1024,
    creation_time := "2024-01-02 00:00:00", modification_time := "2024-01-02 00:00:00",
    is_too_large := false }

/-- C4 counterexample: when the history file does not exist,
record_upload_history creates it, but the header line it writes is the
six-column header hardcoded in telegram_client.py, not the seven-column
header (ending in deleted_after_upload) that the claim states. -/
theorem c4_header_differs_counterexample :
    (record_upload_history none "2024-01-02 00:00:00" fiSmall true (some 5)).head? ≠
      some UPLOAD_HISTORY_HEADER := by
  decide

/-- C4 (amended): when the history file does not exist,
record_upload_history creates it with a header line followed by exactly
one data row, the header being
filename,source_path,upload_date,upload_success,file_size_mb,telegram_message_id
(without the deleted_after_upload column); on every call with an
existing file the header is not rewritten and exactly one data row is
appended. -/
theorem c4_history_creation_and_append :
    (∀ (d : String) (fi : FileInfo) (s : Bool) (m : Option Nat),
        record_upload_history none d fi s m = [record_history_header, history_row d fi s m]) ∧
      (∀ (lines : List String) (d : String) (fi : FileInfo) (s : Bool) (m : Option Nat),
        record_upload_history (some lines) d fi s m = lines ++ [history_row d fi s m]) ∧
      record_history_header =
        "filename,source_path,upload_date,upload_success,file_size_mb,telegram_message_id" :=
  ⟨fun _ _ _ _ => rfl, fun _ _ _ _ _ => rfl, rfl⟩

/-- C1: in send_file_with_progress, a rate-limit (FloodWaitError)
outcome sleeps exactly the mandated seconds and retries the same file
with the same retry count; an RPC or generic error with
retry_count < MAX_RETRY_ATTEMPTS sleeps RETRY_DELAY * (retry_count + 1)
and retries with retry_count + 1; once retry_count reaches
MAX_RETRY_ATTEMPTS such an error terminates with failure, one failed
history record and one error notification; and a run of
MAX_RETRY_ATTEMPTS + 1 consecutive generic errors from retry count 0
makes exactly MAX_RETRY_ATTEMPTS + 1 transfer attempts and then fails
permanently. -/
theorem c1_retry_and_backoff (fi : FileInfo) (hfi : fi.is_too_large = false) :
    (∀ (n : Nat) (rest : List TransportOutcome) (rc : Nat),
        send_file_with_progress true fi (TransportOutcome.floodWait n :: rest) rc =
          (let r := send_file_with_progress true fi rest rc
           { r with attempts := r.attempts + 1, sleeps := n :: r.sleeps })) ∧
      (∀ (rest : List TransportOutcome) (rc : Nat), rc < MAX_RETRY_ATTEMPTS →
        send_file_with_progress true fi (TransportOutcome.rpcError :: rest) rc =
          (let r := send_file_with_progress true fi rest (rc + 1)
           { r with attempts := r.attempts + 1,
                    sleeps := RETRY_DELAY * (rc + 1) :: r.sleeps })) ∧
      (∀ (rest : List TransportOutcome) (rc : Nat), rc < MAX_RETRY_ATTEMPTS →
        send_file_with_progress true fi (TransportOutcome.genericError :: rest) rc =
          (let r := send_file_with_progress true fi rest (rc + 1)
           { r with attempts := r.attempts + 1,
                    sleeps := RETRY_DELAY * (rc + 1) :: r.sleeps })) ∧
      (∀ (rest : List TransportOutcome) (rc : Nat), ¬ rc < MAX_RETRY_ATTEMPTS →
        send_file_with_progress true fi (TransportOutcome.rpcError :: rest) rc =
          { success := false, attempts := 1, sleeps := [], history := [(false, none)],
            error_notifs := 1 }) ∧
      (∀ (rest : List TransportOutcome) (rc : Nat), ¬ rc < MAX_RETRY_ATTEMPTS →
        send_file_with_progress true fi (TransportOutcome.genericError :: rest) rc =
          { success := false, attempts := 1, sleeps := [], history := [(false, none)],
            error_notifs := 1 }) ∧
      (∀ rest : List TransportOutcome,
        send_file_with_progress true fi
            (List.replicate (MAX_RETRY_ATTEMPTS + 1) TransportOutcome.genericError ++ rest) 0 =
          { success := false, attempts := MAX_RETRY_ATTEMPTS + 1,
            sleeps := [RETRY_DELAY, RETRY_DELAY * 2, RETRY_DELAY * 3],
            history := [(false, none)], error_notifs := 1 }) := by
  refine ⟨?_, ?_, ?_, ?_, ?_, ?_⟩
  · intro n rest rc
    conv_lhs => rw [send_file_with_progress]
    simp [hfi]
  · intro rest rc hrc
    conv_lhs => rw [send_file_with_progress]
    simp [hfi, hrc]
  · intro rest rc hrc
    conv_lhs => rw [send_file_with_progress]
    simp [hfi, hrc]
  · intro rest rc hrc
    conv_lhs => rw [send_file_with_progress]
    simp [hfi, hrc]
  · intro rest rc hrc
    conv_lhs => rw [send_file_with_progress]
    simp [hfi, hrc]
  · intro rest
    show send_file_with_progress true fi
        (TransportOutcome.genericError :: TransportOutcome.genericError ::
          TransportOutcome.genericError :: TransportOutcome.genericError :: rest) 0 = _
    rw [send_file_with_progress]
    simp only [hfi]
    rw [send_file_with_progress]
    simp only [hfi]
    rw [send_file_with_progress]
    simp only [hfi]
    rw [send_file_with_progress]
    simp only [hfi]
    norm_num [MAX_RETRY_ATTEMPTS, RETRY_DELAY]

/-- Witness for C1 at concrete inputs: a flood wait of 40 seconds at
retry count 0, a generic error at retry count 0 (below the budget), and
a generic error at retry count 3 (budget exhausted), plus the complete
four-generic-error run. -/
theorem c1_retry_and_backoff_witness :
    fiSmall.is_too_large = false ∧ (0 : Nat) < MAX_RETRY_ATTEMPTS ∧
      ¬ (3 : Nat) < MAX_RETRY_ATTEMPTS ∧
      send_file_with_progress true fiSmall [TransportOutcome.floodWait 40] 0 =
        { success := false, attempts := 1, sleeps := [40], history := [],
          error_notifs := 0 } ∧
      send_file_with_progress true fiSmall [TransportOutcome.genericError] 0 =
        { success := false, attempts := 1, sleeps := [30], history := [],
          error_notifs := 0 } ∧
      send_file_with_progress true fiSmall [TransportOutcome.genericError] 3 =
        { success := false, attempts := 1, sleeps := [], history := [(false, none)],
          error_notifs := 1 } ∧
      send_file_with_progress true fiSmall
          (List.replicate 4 TransportOutcome.genericError) 0 =
        { success := false, attempts := 4, sleeps := [30, 60, 90],
          history := [(false, none)], error_notifs := 1 } := by
  have h := c1_retry_and_backoff fiSmall rfl
  refine ⟨rfl, by decide, by decide, ?_, ?_, ?_, ?_⟩
  · simpa using h.1 40 [] 0
  · simpa [RETRY_DELAY] using h.2.2.1 [] 0 (by decide)
  · simpa using h.2.2.2.2.1 [] 3 (by decide)
  · simpa [MAX_RETRY_ATTEMPTS, RETRY_DELAY] using h.2.2.2.2.2 []

/-- An ordinary 5 MB discovered file from a first source, used to show
that the global discovery order is not size-sorted across sources. -/
def fiBig : FileInfo :=
  { name := "b.zip", path := "/s1/b.zip", source := "/s1",
    size_bytes := 5242880, size_mb := 5, size_gb := (5 : Rat) / 1024,
    creation_time := "2024-01-03 00:00:00", modification_time := "2024-01-03 00:00:00",
    is_too_large := false }

theorem foldl_append_map_flatten {α β : Type} (f : α → List β) (sources : List α)
    (acc : List β) :
    sources.foldl (fun all s => all ++ f s) acc = acc ++ (sources.map f).flatten := by
  induction sources generalizing acc with
  | nil => simp
  | cons s ss ih => simp [List.foldl, ih, List.append_assoc]

/-- C5 counterexample: with two sources, one holding only a 5 MB file
and the next only a 1 MB file, discover_files_from_sources returns the
5 MB file first, so the discovered list consumed as the upload order is
not sorted by size ascending across the whole result. -/
theorem c5_global_order_counterexample :
    discover_files_from_sources [[fiBig], [fiSmall]] = [fiBig, fiSmall] ∧
      ¬ List.Sorted sizeLe (discover_files_from_sources [[fiBig], [fiSmall]]) := by
  refine ⟨rfl, ?_⟩
  decide

/-- C5 (amended): each individual source's file list is sorted by size
ascending by find_files_in_source, and discover_files_from_sources
returns the concatenation of the per-source sorted lists in source
order without a global sort, so the upload order is only size-sorted
within each source. -/
theorem c5_per_source_size_order :
    (∀ found_files : List FileInfo,
        List.Sorted sizeLe (find_files_in_source found_files)) ∧
      (∀ sources : List (List FileInfo),
        discover_files_from_sources sources =
          (sources.map find_files_in_source).flatten) := by
  refine ⟨fun found_files => List.sorted_insertionSort sizeLe found_files, fun sources => ?_⟩
  simpa using foldl_append_map_flatten find_files_in_source sources []

/-! ## Greedy cleanup selection lemmas -/

/-- Sum of the freshly-stat'd sizes of a candidate list, in GB. -/
def totalSizeGB (l : List CleanupCandidate) : Rat :=
  (l.map CleanupCandidate.size_gb).sum

theorem totalSizeGB_nil : totalSizeGB [] = 0 := rfl

theorem totalSizeGB_cons (c : CleanupCandidate) (l : List CleanupCandidate) :
    totalSizeGB (c :: l) = c.size_gb + totalSizeGB l := by
  simp [totalSizeGB]

theorem selectFiles_reaches_target (space : Rat) :
    ∀ (cands : List CleanupCandidate) (acc : Rat),
      acc + totalSizeGB (selectFiles space cands acc) ≥ space ∨
        selectFiles space cands acc = cands
  | [], _ => Or.inr rfl
  | c :: cs, acc => by
    unfold selectFiles
    by_cases h : acc ≥ space
    · left
      simp [h, totalSizeGB_nil]
    · simp only [h, if_false]
      rcases selectFiles_reaches_target space cs (acc + c.size_gb) with hl | hr
      · left
        rw [totalSizeGB_cons]
        linarith
      · right
        rw [hr]

theorem selectFiles_isPrefixOf (space : Rat) :
    ∀ (cands : List CleanupCandidate) (acc : Rat),
      selectFiles space cands acc <+: cands
  | [], _ => ⟨[], rfl⟩
  | c :: cs, acc => by
    unfold selectFiles
    by_cases h : acc ≥ space
    · exact ⟨c :: cs, by simp [h]⟩
    · simp only [h, if_false]
      rcases selectFiles_isPrefixOf space cs (acc + c.size_gb) with ⟨t, ht⟩
      exact ⟨t, by simp [ht]⟩

theorem selectFiles_before_last_below_target (space : Rat) :
    ∀ (cands : List CleanupCandidate) (acc : Rat),
      acc + totalSizeGB (selectFiles space cands acc).dropLast < space ∨
        selectFiles space cands acc = []
  | [], _ => Or.inr rfl
  | c :: cs, acc => by
    unfold selectFiles
    by_cases h : acc ≥ space
    · right
      simp [h]
    · simp only [h, if_false]
      rcases hrec : selectFiles space cs (acc + c.size_gb) with _ | ⟨d, ds⟩
      · left
        simp [totalSizeGB_nil]
        linarith
      · rcases selectFiles_before_last_below_target space cs (acc + c.size_gb) with hl | hr
        · left
          rw [hrec] at hl
          simp only [List.dropLast_cons₂, totalSizeGB_cons] at hl ⊢
          linarith
        · rw [hrec] at hr
          exact absurd hr (by simp)

theorem selectFiles_mono {s1 s2 : Rat} (h : s1 ≤ s2) :
    ∀ (cands : List CleanupCandidate) (acc : Rat),
      selectFiles s1 cands acc <+: selectFiles s2 cands acc
  | [], _ => ⟨[], rfl⟩
  | c :: cs, acc => by
    unfold selectFiles
    by_cases h2 : acc ≥ s2
    · have h1 : acc ≥ s1 := le_trans h h2
      simp [h1, h2]
    · by_cases h1 : acc ≥ s1
      · rw [if_pos h1, if_neg h2]
        exact ⟨_, rfl⟩
      · simp only [h1, h2, if_false]
        rcases selectFiles_mono h cs (acc + c.size_gb) with ⟨t, ht⟩
        exact ⟨t, by simp [ht]⟩

theorem get_files_to_cleanup_sorted (fs : FSState) (du : Option DiskUsage)
    (history : List HistoryRecord) (t : Rat) :
    List.Sorted mtimeLe (get_files_to_cleanup fs du history t) := by
  unfold get_files_to_cleanup
  cases du with
  | none => dsimp only; split_ifs <;> exact List.sorted_nil
  | some d =>
    dsimp only
    split_ifs with h1 h2 h3
    any_goals exact List.sorted_nil
    rcases selectFiles_isPrefixOf (max 0 (t - d.free_gb))
        (List.insertionSort mtimeLe
          ((get_successful_uploads history).filterMap (buildCandidate fs))) 0 with
      ⟨tail, ht⟩
    refine List.Pairwise.sublist ?_ (List.sorted_insertionSort mtimeLe
      ((get_successful_uploads history).filterMap (buildCandidate fs)))
    have hsub := List.sublist_append_left (selectFiles (max 0 (t - d.free_gb))
      (List.insertionSort mtimeLe
        ((get_successful_uploads history).filterMap (buildCandidate fs))) 0) tail
    rwa [ht] at hsub

/-- Disk usage snapshot for the cleanup scenario: 5 GB free. -/
def duC2 : Option DiskUsage :=
  some { total_gb := 100, used_gb := 95, free_gb := 5, usage_percent := 95 }

/-- Filesystem state for the cleanup scenario: three previously
uploaded archives of 1 GiB, 2 GiB and 3 GiB whose modification times
order them a, b, c from oldest to newest. -/
def fsC2 : FSState :=
  { pathExists := fun p => p == "/data/a.7z" || p == "/data/b.7z" || p == "/data/c.7z"
    sizeBytes := fun p =>
      if p == "/data/a.7z" then 1073741824
      else if p == "/data/b.7z" then 2147483648
      else if p == "/data/c.7z" then 3221225472
      else 0
    mtime := fun p =>
      if p == "/data/a.7z" then 100
      else if p == "/data/b.7z" then 200
      else if p == "/data/c.7z" then 300
      else 0 }

/-- Upload history for the cleanup scenario: three successful rows,
deliberately listed in non-chronological order. -/
def histC2 : List HistoryRecord :=
  [{ filename := "c.7z", source_path := "/data/c.7z",
     upload_date := "2024-01-03 00:00:00", upload_success := "TRUE" },
   { filename := "a.7z", source_path := "/data/a.7z",
     upload_date := "2024-01-01 00:00:00", upload_success := "TRUE" },
   { filename := "b.7z", source_path := "/data/b.7z",
     upload_date := "2024-01-02 00:00:00", upload_success := "TRUE" }]

/-- C2: get_files_to_cleanup sorts candidates by modification time
oldest first and greedily accumulates them until the accumulated size
reaches the space to free, including the candidate that crosses the
threshold.  Conjuncts: the concrete scenario (sizes 1 GB, 2 GB, 3 GB
oldest to newest, 2.5 GB to free, target 7.5 GB against 5 GB free)
selects exactly the 1 GB and 2 GB files, freeing 3 GB; the selection
always reaches the target unless it exhausts the candidates; the
selection is a prefix of the candidate order it is given; dropping the
final selected candidate always leaves a total below the target (so the
crossing candidate is included, never excluded); and the output of
get_files_to_cleanup is sorted by modification time. -/
theorem c2_greedy_cleanup_selection :
    (get_files_to_cleanup fsC2 duC2 histC2 ((15 : Rat) / 2) =
        [{ path := "/data/a.7z", size_gb := 1, modification_time := 100,
           upload_date := "2024-01-01 00:00:00", filename := "a.7z" },
         { path := "/data/b.7z", size_gb := 2, modification_time := 200,
           upload_date := "2024-01-02 00:00:00", filename := "b.7z" }] ∧
      totalSizeGB (get_files_to_cleanup fsC2 duC2 histC2 ((15 : Rat) / 2)) = 3) ∧
      (∀ (space : Rat) (cands : List CleanupCandidate),
        totalSizeGB (selectFiles space cands 0) ≥ space ∨
          selectFiles space cands 0 = cands) ∧
      (∀ (space : Rat) (cands : List CleanupCandidate) (acc : Rat),
        selectFiles space cands acc <+: cands) ∧
      (∀ (space : Rat) (cands : List CleanupCandidate),
        totalSizeGB (selectFiles space cands 0).dropLast < space ∨
          selectFiles space cands 0 = []) ∧
      (∀ (fs : FSState) (du : Option DiskUsage) (history : List HistoryRecord) (t : Rat),
        List.Sorted mtimeLe (get_files_to_cleanup fs du history t)) := by
  have hmain : get_files_to_cleanup fsC2 duC2 histC2 ((15 : Rat) / 2) =
      [{ path := "/data/a.7z", size_gb := 1, modification_time := 100,
         upload_date := "2024-01-01 00:00:00", filename := "a.7z" },
       { path := "/data/b.7z", size_gb := 2, modification_time := 200,
         upload_date := "2024-01-02 00:00:00", filename := "b.7z" }] := by
    norm_num +decide [get_files_to_cleanup, needs_cleanup, duC2, fsC2, histC2,
      get_successful_uploads, pyLower, buildCandidate, List.filterMap,
      List.insertionSort, List.orderedInsert, mtimeLe, selectFiles]
  refine ⟨⟨hmain, ?_⟩, ?_, selectFiles_isPrefixOf, ?_,
    get_files_to_cleanup_sorted⟩
  · rw [hmain]
    norm_num [totalSizeGB]
  · intro space cands
    simpa using selectFiles_reaches_target space cands 0
  · intro space cands
    simpa using selectFiles_before_last_below_target space cands 0

/-- C8: for a fixed filesystem, disk usage and history, increasing the
target never shrinks the selected set: the selection for the smaller
target is contained in the selection for the larger one. -/
theorem c8_selection_monotone (fs : FSState) (du : Option DiskUsage)
    (history : List HistoryRecord) (t1 t2 : Rat) (h : t1 ≤ t2) :
    get_files_to_cleanup fs du history t1 ⊆ get_files_to_cleanup fs du history t2 := by
  unfold get_files_to_cleanup
  cases du with
  | none => dsimp only; split_ifs <;> exact List.Subset.refl _
  | some d =>
    dsimp only
    have hsp : max 0 (t1 - d.free_gb) ≤ max 0 (t2 - d.free_gb) :=
      max_le_max le_rfl (by linarith)
    by_cases h1 : needs_cleanup (some d)
    case neg => simp [h1]
    by_cases h2 : (get_successful_uploads history).isEmpty
    case pos => simp [h1, h2]
    simp only [h1, h2, not_true_eq_false, not_false_eq_true, if_true, if_false,
      Bool.false_eq_true]
    by_cases h3 : max 0 (t1 - d.free_gb) ≤ 0
    · rw [if_pos h3]
      exact List.nil_subset _
    · have h4 : ¬ max 0 (t2 - d.free_gb) ≤ 0 := fun hc => h3 (le_trans hsp hc)
      rw [if_neg h3, if_neg h4]
      rcases selectFiles_mono hsp
          (List.insertionSort mtimeLe
            ((get_successful_uploads history).filterMap (buildCandidate fs))) 0 with
        ⟨tail, ht⟩
      intro x hx
      rw [← ht]
      exact List.mem_append_left tail hx

/-- Witness for C8 at the concrete cleanup scenario, with targets
7.5 GB and 9 GB. -/
theorem c8_selection_monotone_witness :
    ((15 : Rat) / 2 ≤ 9) ∧
      get_files_to_cleanup fsC2 duC2 histC2 ((15 : Rat) / 2) ⊆
        get_files_to_cleanup fsC2 duC2 histC2 9 :=
  ⟨by norm_num, c8_selection_monotone fsC2 duC2 histC2 ((15 : Rat) / 2) 9 (by norm_num)⟩

/-- C6: a deletion attempt on a read-only filesystem never lets an
error escape delete_file_after_upload.  Conjuncts: when the write-probe
reports a read-only filesystem the call returns False (file kept); when
os.remove reports a read-only filesystem the call returns False; and
whenever the body of the outer try raises any exception at all, the
outer handlers turn it into a False return, so the caller in
BackupBot.delete_files_after_upload just counts the file as kept and
the run continues. -/
theorem c6_read_only_degrades_to_kept :
    (∀ env : DeleteEnv, env.probe = ProbeResult.osErrorReadOnly →
        delete_file_after_upload env = false) ∧
      (∀ env : DeleteEnv, env.removeResult = RemoveResult.osErrorReadOnly →
        delete_file_after_upload env = false) ∧
      (∀ (env : DeleteEnv) (e : PyError), delete_core env = Except.error e →
        delete_file_after_upload env = false) := by
  refine ⟨?_, ?_, ?_⟩
  · intro env h
    unfold delete_file_after_upload delete_core
    rw [h]
    split_ifs <;> rfl
  · intro env h
    unfold delete_file_after_upload delete_core
    rw [h]
    cases env.probe <;> split_ifs <;> rfl
  · intro env e h
    unfold delete_file_after_upload
    rw [h]
    cases e <;> split_ifs <;> rfl

/-- Environment in which the write-probe hits a read-only filesystem. -/
def envProbeRO : DeleteEnv :=
  { delete_after_upload := true, fileExists := true,
    probe := ProbeResult.osErrorReadOnly, statFails := false, canWrite := true,
    removeResult := RemoveResult.ok, existsAfterRemove := false }

/-- Environment in which os.remove raises the read-only OSError. -/
def envRemoveRO : DeleteEnv :=
  { delete_after_upload := true, fileExists := true,
    probe := ProbeResult.ok, statFails := false, canWrite := true,
    removeResult := RemoveResult.osErrorReadOnly, existsAfterRemove := true }

/-- Environment in which os.remove raises a non-read-only OSError that
the inner handler re-raises. -/
def envRemoveErr : DeleteEnv :=
  { delete_after_upload := true, fileExists := true,
    probe := ProbeResult.ok, statFails := false, canWrite := true,
    removeResult := RemoveResult.osErrorOther, existsAfterRemove := true }

/-- Witness for C6 at concrete environments: the probe read-only case,
the os.remove read-only case, and a re-raised OSError all end in a
False (file kept) return. -/
theorem c6_read_only_degrades_to_kept_witness :
    envProbeRO.probe = ProbeResult.osErrorReadOnly ∧
      delete_file_after_upload envProbeRO = false ∧
      envRemoveRO.removeResult = RemoveResult.osErrorReadOnly ∧
      delete_file_after_upload envRemoveRO = false ∧
      delete_core envRemoveErr = Except.error PyError.osError ∧
      delete_file_after_upload envRemoveErr = false :=
  ⟨rfl, c6_read_only_degrades_to_kept.1 envProbeRO rfl, rfl,
    c6_read_only_degrades_to_kept.2.1 envRemoveRO rfl, rfl,
    c6_read_only_degrades_to_kept.2.2 envRemoveErr PyError.osError rfl⟩

end BackupBot
